import Mathlib

/-!
Verification development for the fund-document extraction backend.

The definitions below are a shallow embedding of the JavaScript sources:
the DynamoDB record store becomes an association list of fund records, each
DynamoDB UpdateItem/PutItem call site becomes an explicit record mutation,
and the two entry points that drive extraction (the HTTP IC-memo handler and
the SQS queue consumer) become Lean functions over that store.  External
services (S3, Textract, Bedrock) are cut at the point where control enters
them; all status gating and record mutation happens before that point and is
embedded faithfully, including argument normalisation (trim / lower-casing)
as performed by the JavaScript.
-/

/-! ## String helpers mirroring the JavaScript primitives used by the code -/

/-- Whitespace test used by the model of `String.prototype.trim`. -/
def isJsWs (c : Char) : Bool :=
  c = ' ' || c = '\t' || c = '\n' || c = '\r'

/-- Trim leading and trailing whitespace from a character list. -/
def trimChars (l : List Char) : List Char :=
  ((l.dropWhile isJsWs).reverse.dropWhile isJsWs).reverse

/-- Model of `s.trim()`. -/
def jsTrim (s : String) : String :=
  ⟨trimChars s.data⟩

/-- Model of `s.toLowerCase()` (ASCII-faithful). -/
def jsToLower (s : String) : String :=
  ⟨s.data.map Char.toLower⟩

/-- Model of `s.toUpperCase()` (ASCII-faithful). -/
def jsToUpper (s : String) : String :=
  ⟨s.data.map Char.toUpper⟩

/-- Does `s` start with the pattern `pat`? -/
def seqStartsWith : List Char → List Char → Bool
  | [], _ => true
  | _ :: _, [] => false
  | a :: as, b :: bs => a = b && seqStartsWith as bs

/-- Does `s` contain the pattern `pat` as a contiguous subsequence?
Models `String.prototype.includes`. -/
def seqContains (pat : List Char) : List Char → Bool
  | [] => seqStartsWith pat []
  | c :: rest => seqStartsWith pat (c :: rest) || seqContains pat rest

/-- Model of `t.toUpperCase().includes("WATERMARK")` from the OCR noise filter. -/
def upperHasWatermark (t : String) : Bool :=
  seqContains "WATERMARK".data (jsToUpper t).data

/-- Split a character list on the slash character; models `s.split("/")`. -/
def splitSlash : List Char → List (List Char)
  | [] => [[]]
  | c :: rest =>
    let r := splitSlash rest
    if c = '/' then [] :: r
    else
      match r with
      | [] => [[c]]
      | h :: t => (c :: h) :: t

/-- Model of `objectKey.split("/").slice(-1)[0]`. -/
def lastSegment (s : String) : String :=
  ⟨(splitSlash s.data).getLastD []⟩

/-- Join strings with newline separators; models `Array.prototype.join("\n")`. -/
def joinNl : List String → String
  | [] => ""
  | [t] => t
  | t :: ts => t ++ "\n" ++ joinNl ts

/-- JavaScript truthiness of an optional string attribute: present and nonempty. -/
def optStrTruthy (o : Option String) : Bool :=
  (o.getD "") ≠ ""

/-- Model of the `(typeof x === "string" && x.trim()) ? x.trim() : ""`
normalisation applied to every message field in the queue consumer. -/
def normStr (o : Option String) : String :=
  jsTrim (o.getD "")

/-! ## Data model: the fund record and the record store -/

/-- Status values written or tested anywhere in the sources. -/
inductive Status
  | CREATED
  | UPLOADING
  | UPLOADED
  | PROCESSING
  | EXTRACTED
  | SUCCEEDED
  | FAILED
  | INITIATED
deriving DecidableEq, Repr

/-- One DynamoDB row per fund.  Every attribute that any code path reads or
writes is a field; absence of the attribute is `none`. -/
structure FundRecord where
  fundName : Option String := none
  status : Option Status := none
  bucket : Option String := none
  objectKey : Option String := none
  fileName : Option String := none
  documentType : Option String := none
  payload : Option String := none
  errorReason : Option String := none
  errorMessage : Option String := none
  resultBucket : Option String := none
  resultKey : Option String := none
  resultPath : Option String := none
  schemaPath : Option String := none
  uploadPrefixUri : Option String := none
  resultPrefixUri : Option String := none
  inputFiles : Option (List String) := none
  createdAt : Option String := none
  updatedAt : Option String := none
  extractedAt : Option String := none
  ttl : Option Nat := none
deriving DecidableEq, Repr

/-- The item DynamoDB materialises when an UpdateItem call targets a missing
key: every attribute absent. -/
def blankRecord : FundRecord := {}

/-- The record store: fund id to record. -/
def Store := List (String × FundRecord)
deriving DecidableEq

/-- Look a fund record up by id (DynamoDB GetItem). -/
def getRec : Store → String → Option FundRecord
  | [], _ => none
  | (k, r) :: rest, f => if k = f then some r else getRec rest f

/-- Write a fund record (full-item PutItem, or the result of an update). -/
def putRec (st : Store) (k : String) (r : FundRecord) : Store :=
  match st with
  | [] => [(k, r)]
  | (k0, r0) :: rest => if k0 = k then (k, r) :: rest else (k0, r0) :: putRec rest k r

/-- DynamoDB UpdateItem: mutates the stored item, creating a blank item first
when the key is absent (upsert semantics). -/
def applyUpdate (st : Store) (k : String) (mutate : FundRecord → FundRecord) : Store :=
  putRec st k (mutate ((getRec st k).getD blankRecord))

/-- DynamoDB UpdateItem with a ConditionExpression: the mutation applies only
when the condition holds of the current item (a blank item when absent); the
boolean reports whether it applied. -/
def condUpdate (st : Store) (k : String) (cond : FundRecord → Bool)
    (mutate : FundRecord → FundRecord) : Store × Bool :=
  let r := (getRec st k).getD blankRecord
  if cond r then (putRec st k (mutate r), true) else (st, false)

/-- DynamoDB PutItem with `attribute_not_exists(fundId)`: create-only write. -/
def putIfAbsent (st : Store) (k : String) (r : FundRecord) : Store × Bool :=
  match getRec st k with
  | some _ => (st, false)
  | none => (putRec st k r, true)

/-! ## Record mutations, one per DynamoDB call site in the sources -/

/-- CreateFundUploadLambda: the initial PutItem item (status UPLOADING), written
with `attribute_not_exists(fundId)`. -/
def createFundItem (fundName fileName bucket objectKey now : String) : FundRecord :=
  { fundName := some fundName
    status := some Status.UPLOADING
    bucket := some bucket
    fileName := some fileName
    objectKey := some objectKey
    createdAt := some now
    updatedAt := some now }

/-- FundDocumentUploadLambda: the full item written by its unconditional
PutCommand after the base64 documents are stored (status UPLOADED); note that
`createdAt` is set to the current time unconditionally. -/
def uploadLambdaItem (bucketName fundId now : String) (documents : List String) : FundRecord :=
  { status := some Status.UPLOADED
    inputFiles := some (documents.map
      (fun fileName => "s3://" ++ bucketName ++ "/" ++ fundId ++ "/files/" ++ fileName))
    schemaPath := some ("s3://" ++ bucketName ++ "/RulesEngineJSONSchema.txt")
    resultPath := some ("s3://" ++ bucketName ++ "/" ++ fundId ++ "/results/rules-engine.json")
    createdAt := some now
    updatedAt := some now }

/-- FundDocumentUploadLambda: the PutCommand replaces whatever record the fund
id already holds. -/
def uploadLambdaStep (st : Store) (bucketName fundId now : String)
    (documents : List String) : Store :=
  putRec st fundId (uploadLambdaItem bucketName fundId now documents)

/-- Upload-initiation lambda, `upsertFundRecord`: SET status = INITIATED,
updatedAt, uploadPrefix, resultPrefix, schemaPath,
createdAt = if_not_exists(createdAt, now), and optionally ttl. -/
def upsertFundRecordUpd (docBucket uploadPrefixKey resultsPrefixKey now : String)
    (ttl : Option Nat) (r : FundRecord) : FundRecord :=
  { r with
    status := some Status.INITIATED
    updatedAt := some now
    uploadPrefixUri := some ("s3://" ++ docBucket ++ "/" ++ uploadPrefixKey)
    resultPrefixUri := some ("s3://" ++ docBucket ++ "/" ++ resultsPrefixKey)
    schemaPath := some ("s3://" ++ docBucket ++ "/RulesEngineJSONSchema.txt")
    createdAt := some (r.createdAt.getD now)
    ttl := match ttl with | some t => some t | none => r.ttl }

/-- Upload-completion lambda: the `attribute_exists(fundId)`-guarded
UpdateCommand that advances the record to UPLOADED and records the manifest. -/
def uploadCompleteUpd (bucketName : String) (inputFiles : List String) (fundId now : String)
    (r : FundRecord) : FundRecord :=
  { r with
    status := some Status.UPLOADED
    inputFiles := some inputFiles
    schemaPath := some ("s3://" ++ bucketName ++ "/RulesEngineJSONSchema.txt")
    resultPath := some ("s3://" ++ bucketName ++ "/" ++ fundId ++ "/results/rules-engine.json")
    updatedAt := some now }

/-- HTTP extraction handler: the ConditionExpression of its move-to-PROCESSING
update, `attribute_not_exists(#s) OR #s IN (:uploading, :failed, :created)`. -/
def httpCondGuard : Option Status → Bool
  | none => true
  | some s => s = Status.UPLOADING || s = Status.FAILED || s = Status.CREATED

/-- Queue consumer: the ConditionExpression of its guarded move-to-PROCESSING
update, `attribute_not_exists(#s) OR #s IN (:uploading, :failed, :created,
:extracted)`. -/
def consumerCondGuard : Option Status → Bool
  | none => true
  | some s =>
    s = Status.UPLOADING || s = Status.FAILED || s = Status.CREATED || s = Status.EXTRACTED

/-- Modelled from the spec: the guard the specification ascribes to
`beginProcessing` — apply only if the current status is UPLOADING, FAILED,
CREATED, EXTRACTED, or unset.  Written for comparison with the two guards
implemented in the sources. -/
def claimBeginGuard : Option Status → Bool
  | none => true
  | some s =>
    s = Status.UPLOADING || s = Status.FAILED || s = Status.CREATED || s = Status.EXTRACTED

/-- HTTP extraction handler: the mutation of its move-to-PROCESSING update:
SET status, updatedAt, objectKey, fileName REMOVE errorReason.  It does not
write `documentType`. -/
def httpBeginApply (objectKey fileName now : String) (r : FundRecord) : FundRecord :=
  { r with
    status := some Status.PROCESSING
    updatedAt := some now
    objectKey := some objectKey
    fileName := some fileName
    errorReason := none }

/-- Queue consumer: the mutation shared by its two move-to-PROCESSING
UpdateItem calls (the unconditional one mislabelled "Fetch fund record" and the
conditionally guarded one): SET status, updatedAt, objectKey, fileName,
documentType REMOVE errorReason. -/
def consumerProcessingApply (objectKey fileName documentType now : String)
    (r : FundRecord) : FundRecord :=
  { r with
    status := some Status.PROCESSING
    updatedAt := some now
    objectKey := some objectKey
    fileName := some fileName
    documentType := some documentType
    errorReason := none }

/-- Queue consumer: the success-persistence update: SET status = EXTRACTED,
updatedAt, extractedAt, payload, resultBucket, resultKey REMOVE errorReason. -/
def completeExtractionUpd (payload resultBucket resultKey now : String)
    (r : FundRecord) : FundRecord :=
  { r with
    status := some Status.EXTRACTED
    updatedAt := some now
    extractedAt := some now
    payload := some payload
    resultBucket := some resultBucket
    resultKey := some resultKey
    errorReason := none }

/-- HTTP extraction handler: its success-persistence update: SET status =
EXTRACTED, updatedAt, extractedAt, payload REMOVE errorReason. -/
def httpCompleteExtractionUpd (payload now : String) (r : FundRecord) : FundRecord :=
  { r with
    status := some Status.EXTRACTED
    updatedAt := some now
    extractedAt := some now
    payload := some payload
    errorReason := none }

/-- The mark-FAILED update shared by every failure path in both handlers:
SET status = FAILED, updatedAt, errorReason.  It does not remove `payload`. -/
def markFailedUpd (reason now : String) (r : FundRecord) : FundRecord :=
  { r with
    status := some Status.FAILED
    updatedAt := some now
    errorReason := some reason }

/-- Batched processor (`updateFundStatus`): SET status, updatedAt, and
optionally resultPath and errorMessage. -/
def updateFundStatusUpd (statusV : Status) (resultPath errorMessage : Option String)
    (now : String) (r : FundRecord) : FundRecord :=
  { r with
    status := some statusV
    updatedAt := some now
    resultPath := match resultPath with | some p => some p | none => r.resultPath
    errorMessage := match errorMessage with | some e => some e | none => r.errorMessage }

/-! ## The queue consumer (SQS handler and processOneMessage) -/

/-- Environment configuration read by the consumer and the HTTP handler;
an unset variable is the empty string (JavaScript falsy). -/
structure Env where
  TABLE : String
  DOC_BUCKET : String
  PROMPT_KEY : String
  SCHEMA_KEY : String
  MODEL_ID : String
deriving DecidableEq, Repr

/-- A thrown JavaScript error, carrying `err.message`. -/
structure PErr where
  message : String
deriving DecidableEq, Repr

/-- The runtime TypeError raised when `fundRecord.Item.status` is read while
`fundRecord.Item` is undefined (UpdateItemCommand without ReturnValues returns
no Item). -/
def typeErrorMsg : String := "Cannot read properties of undefined"

/-- How far control got inside `processOneMessage` when it returned normally;
`pipelineEntered` marks the point where `processICMemo` (S3 / Textract /
Bedrock) would begin. -/
inductive ConsumerOutcome
  | skippedNotImplemented
  | idempotentExtracted
  | idempotentProcessing
  | pipelineEntered
deriving DecidableEq, Repr

/-- The SQS message contract of the consumer; absent fields are `none`. -/
structure SqsMessage where
  fundId : Option String := none
  documentType : Option String := none
  bucket : Option String := none
  key : Option String := none
  fileName : Option String := none
  promptKey : Option String := none
  schemaKey : Option String := none
deriving DecidableEq, Repr

/-- The gating logic of `processOneMessage` after the "Fetch fund record" call,
written over the item that call was expected to return.  (In the shipped code
this logic is unreachable: the fetch is an UpdateItemCommand whose response
carries no Item, so the read of `.Item.status` throws first.) -/
def consumerAfterFetch (st : Store) (fundId objectKey fileName documentType now : String)
    (item : FundRecord) : Store × Except PErr ConsumerOutcome :=
  let currentStatus := item.status
  let existingObjectKey := item.objectKey.getD ""
  if currentStatus = some Status.EXTRACTED ∧ optStrTruthy item.payload then
    (st, Except.ok ConsumerOutcome.idempotentExtracted)
  else if currentStatus = some Status.PROCESSING then
    if existingObjectKey = "" ∨ existingObjectKey = objectKey then
      (st, Except.ok ConsumerOutcome.idempotentProcessing)
    else
      (applyUpdate st fundId
        (markFailedUpd "Received a new document while processing another document" now),
       Except.error ⟨"Processing already in progress for a different document"⟩)
  else
    let step := condUpdate st fundId (fun r => consumerCondGuard r.status)
      (consumerProcessingApply objectKey fileName documentType now)
    if step.2 then (step.1, Except.ok ConsumerOutcome.pipelineEntered)
    else (step.1, Except.error ⟨"The conditional request failed"⟩)

/-- The normalised fields `processOneMessage` extracts from a message before
routing: trimmed fundId, trimmed lower-cased documentType, trimmed input
bucket and object key, the fileName defaulted from the object key, and the
prompt/schema key overrides defaulted from the environment. -/
structure JobFields where
  fundId : String
  documentType : String
  inputBucket : String
  objectKey : String
  fileName : String
  promptKey : String
  schemaKey : String
deriving DecidableEq, Repr

/-- The leading section of `processOneMessage`: the required-environment checks
and the required-message-field checks, each throwing on the first violation, in
source order; on success the normalised fields. -/
def validateMessage (env : Env) (message : SqsMessage) : Except PErr JobFields :=
  if env.TABLE = "" then Except.error ⟨"Missing env var DDB_TABLE"⟩
  else if env.DOC_BUCKET = "" then
    Except.error ⟨"Missing env var DOC_BUCKET (destination bucket for results and prompt/schema)"⟩
  else if env.PROMPT_KEY = "" then Except.error ⟨"Missing env var PROMPT_KEY"⟩
  else if env.SCHEMA_KEY = "" then Except.error ⟨"Missing env var SCHEMA_KEY"⟩
  else if env.MODEL_ID = "" then Except.error ⟨"Missing env var BEDROCK_MODEL_ID"⟩
  else
    let fundId := normStr message.fundId
    if fundId = "" then Except.error ⟨"Missing fundId in SQS message"⟩
    else
      let documentType := jsToLower (normStr message.documentType)
      if documentType = "" then Except.error ⟨"Missing documentType in SQS message"⟩
      else
        let inputBucket := normStr message.bucket
        if inputBucket = "" then
          Except.error ⟨"Missing bucket (input bucket) in SQS message"⟩
        else
          let objectKey := normStr message.key
          if objectKey = "" then
            Except.error ⟨"Missing key (objectKey) in SQS message"⟩
          else
            let fileName :=
              if normStr message.fileName ≠ "" then normStr message.fileName
              else lastSegment objectKey
            let promptKey :=
              if normStr message.promptKey ≠ "" then normStr message.promptKey
              else env.PROMPT_KEY
            let schemaKey :=
              if normStr message.schemaKey ≠ "" then normStr message.schemaKey
              else env.SCHEMA_KEY
            Except.ok ⟨fundId, documentType, inputBucket, objectKey, fileName,
              promptKey, schemaKey⟩

/-- `processOneMessage` of the queue consumer: environment checks, field
normalisation and validation, documentType routing, then — for "icmemo" — the
unconditional move-to-PROCESSING UpdateItemCommand mislabelled "Fetch fund
record", whose response carries no Item, so the following read of
`.Item.status` raises a TypeError. -/
def processOneMessage (env : Env) (st : Store) (message : SqsMessage) (now : String) :
    Store × Except PErr ConsumerOutcome :=
  match validateMessage env message with
  | Except.error e => (st, Except.error e)
  | Except.ok fields =>
    if fields.documentType = "icmemo" then
      let st1 := applyUpdate st fields.fundId
        (consumerProcessingApply fields.objectKey fields.fileName fields.documentType now)
      let fetchedItem : Option FundRecord := none
      match fetchedItem with
      | some item =>
        consumerAfterFetch st1 fields.fundId fields.objectKey fields.fileName
          fields.documentType now item
      | none => (st1, Except.error ⟨typeErrorMsg⟩)
    else if fields.documentType ∈ ["ima", "sideletter", "lpa", "ppm", "subdoc"] then
      (st, Except.ok ConsumerOutcome.skippedNotImplemented)
    else
      (st, Except.error ⟨"Unsupported documentType: " ++ fields.documentType⟩)

/-- A delivered SQS record body: either text that does not parse as JSON, or a
parsed message (an absent body parses as the empty object). -/
inductive MsgBody
  | invalid
  | valid (message : SqsMessage)
deriving DecidableEq, Repr

/-- One delivered SQS record. -/
structure SqsRecord where
  messageId : String
  body : MsgBody
deriving DecidableEq, Repr

/-- One iteration of the consumer handler loop: parse, process, on failure
best-effort mark FAILED when a fundId was resolved and report the message id. -/
def stepRecord (env : Env) (st : Store) (rec : SqsRecord) (now : String) :
    Store × List String :=
  match rec.body with
  | MsgBody.invalid => (st, [rec.messageId])
  | MsgBody.valid message =>
    match processOneMessage env st message now with
    | (st1, Except.ok _) => (st1, [])
    | (st1, Except.error e) =>
      let fundId := normStr message.fundId
      let st2 :=
        if fundId ≠ "" ∧ env.TABLE ≠ "" then
          applyUpdate st1 fundId (markFailedUpd e.message now)
        else st1
      (st2, [rec.messageId])

/-- The consumer SQS handler: processes every record of the batch in order and
returns the final store together with the identifiers reported in
`batchItemFailures`. -/
def consumerHandler (env : Env) (st : Store) (records : List SqsRecord) (now : String) :
    Store × List String :=
  match records with
  | [] => (st, [])
  | rec :: rest =>
    let p := stepRecord env st rec now
    let q := consumerHandler env p.1 rest now
    (q.1, p.2 ++ q.2)

/-- Does `processOneMessage` raise for this message?  Mirrors its branch
structure; the answer depends only on the environment and the message, never on
the store: validation failures and the unconditional crash of the "icmemo"
branch are store-independent, and only the not-yet-implemented types return
normally. -/
def msgProcessingFails (env : Env) (message : SqsMessage) : Bool :=
  match validateMessage env message with
  | Except.error _ => true
  | Except.ok fields =>
    if fields.documentType ∈ ["ima", "sideletter", "lpa", "ppm", "subdoc"] then false
    else true

/-- Does the handler loop report this delivered record as failed? -/
def recordFails (env : Env) (rec : SqsRecord) : Bool :=
  match rec.body with
  | MsgBody.invalid => true
  | MsgBody.valid message => msgProcessingFails env message

/-! ## The HTTP IC-memo extraction handler (status gating slice) -/

/-- The HTTP responses the gating portion of the handler can produce;
`proceeded` marks a successful guard, after which control enters the extraction
pipeline (S3 / Textract / Bedrock). -/
inductive HttpResult
  | r400 (message : String)
  | r404
  | r409
  | r200Already (payload : String)
  | proceeded
  | r500
deriving DecidableEq, Repr

/-- The outer catch of the HTTP handler: best-effort mark FAILED when the
fundId path parameter is present and the table is configured, then answer 500
("IC memo extraction failed"). -/
def httpCatch (env : Env) (st : Store) (fundIdParam : Option String)
    (errMessage now : String) : Store × HttpResult :=
  let fundId := fundIdParam.getD ""
  if fundId ≠ "" ∧ env.TABLE ≠ "" then
    (applyUpdate st fundId (markFailedUpd errMessage now), HttpResult.r500)
  else (st, HttpResult.r500)

/-- The HTTP extraction handler up to (and including) its guarded
move-to-PROCESSING update: env checks, parameter validation, GetItem, the
PROCESSING and EXTRACTED-with-payload fast paths, then the conditional update;
a failed condition throws into the outer catch. -/
def httpExtract (env : Env) (st : Store) (fundIdParam fileNameBody : Option String)
    (now : String) : Store × HttpResult :=
  if env.TABLE = "" then (st, HttpResult.r500)
  else if env.DOC_BUCKET = "" then httpCatch env st fundIdParam "Missing env var DOC_BUCKET" now
  else if env.PROMPT_KEY = "" then httpCatch env st fundIdParam "Missing env var PROMPT_KEY" now
  else if env.SCHEMA_KEY = "" then httpCatch env st fundIdParam "Missing env var SCHEMA_KEY" now
  else if env.MODEL_ID = "" then
    httpCatch env st fundIdParam "Missing env var BEDROCK_MODEL_ID" now
  else
    match fundIdParam with
    | none => (st, HttpResult.r400 "fundId path parameter required")
    | some fundId =>
      if fundId = "" then (st, HttpResult.r400 "fundId path parameter required")
      else
        let fileName := jsTrim (fileNameBody.getD "")
        if fileName = "" then (st, HttpResult.r400 "fileName required in request body")
        else
          let objectKey := fundId ++ "/" ++ fileName
          match getRec st fundId with
          | none => (st, HttpResult.r404)
          | some item =>
            let currentStatus := item.status
            if currentStatus = some Status.PROCESSING then (st, HttpResult.r409)
            else if currentStatus = some Status.EXTRACTED ∧ optStrTruthy item.payload then
              (st, HttpResult.r200Already (item.payload.getD ""))
            else
              let step := condUpdate st fundId (fun r => httpCondGuard r.status)
                (httpBeginApply objectKey fileName now)
              if step.2 then (step.1, HttpResult.proceeded)
              else httpCatch env step.1 fundIdParam "The conditional request failed" now

/-! ## OCR text assembly -/

/-- A Textract text block: `{BlockType, Text}`, the text possibly absent. -/
structure TextBlock where
  blockType : String
  text : Option String := none
deriving DecidableEq, Repr

/-- The OCR text assembled by the HTTP handler and the queue consumer
(identical code in both): keep LINE blocks, take their text (empty when
absent), drop falsy text and text whose upper-casing contains "WATERMARK",
join with newlines. -/
def memoText (blocks : List TextBlock) : String :=
  joinNl (((blocks.filter (fun b => b.blockType == "LINE")).map
      (fun b => b.text.getD "")).filter
    (fun t => t != "" && !(upperHasWatermark t)))

/-- The OCR text assembled by the simple extraction handler: keep LINE blocks,
take their text, join with newlines — no noise filter at all. -/
def memoTextSimple (blocks : List TextBlock) : String :=
  joinNl ((blocks.filter (fun b => b.blockType == "LINE")).map
    (fun b => b.text.getD ""))

/-- Modelled from the spec: the document text the claim describes — the texts
of exactly those blocks whose block type is LINE and whose text does not
case-insensitively contain the watermark marker, concatenated in the original
block order with newline separators. -/
def claimOcrText (blocks : List TextBlock) : String :=
  joinNl ((blocks.filter
      (fun b => b.blockType == "LINE" && !(upperHasWatermark (b.text.getD "")))).map
    (fun b => b.text.getD ""))

/-- The amended description of the status-managed handlers: additionally
require the block text to be nonempty. -/
def claimOcrTextNonempty (blocks : List TextBlock) : String :=
  joinNl ((blocks.filter
      (fun b => b.blockType == "LINE"
        && (b.text.getD "" != "" && !(upperHasWatermark (b.text.getD ""))))).map
    (fun b => b.text.getD ""))

/-! ## The record-level transition system induced by the call sites -/

/-- A record is initial when one of the three creation sites wrote it: the
IC-memo initiation PutItem, the direct-upload PutCommand, or the upsert of the
upload-initiation lambda applied to an absent row. -/
def InitialFund (r : FundRecord) : Prop :=
  (∃ fundName fileName bucket objectKey now,
    r = createFundItem fundName fileName bucket objectKey now)
  ∨ (∃ bucketName fundId now documents,
    r = uploadLambdaItem bucketName fundId now documents)
  ∨ (∃ docBucket uploadPrefixKey resultsPrefixKey now ttl,
    r = upsertFundRecordUpd docBucket uploadPrefixKey resultsPrefixKey now ttl blankRecord)

/-- One core mutation of a stored fund record, one constructor per update call
site.  The HTTP begin step carries its condition; the consumer begin step is
also performed unconditionally (the "Fetch fund record" UpdateItem), so it
carries none. -/
inductive CoreStep : FundRecord → FundRecord → Prop
  | httpBegin (objectKey fileName now : String) (r : FundRecord)
      (h : httpCondGuard r.status = true) :
      CoreStep r (httpBeginApply objectKey fileName now r)
  | consumerBegin (objectKey fileName documentType now : String) (r : FundRecord) :
      CoreStep r (consumerProcessingApply objectKey fileName documentType now r)
  | completeExtraction (payload resultBucket resultKey now : String) (r : FundRecord) :
      CoreStep r (completeExtractionUpd payload resultBucket resultKey now r)
  | httpCompleteExtraction (payload now : String) (r : FundRecord) :
      CoreStep r (httpCompleteExtractionUpd payload now r)
  | markFailed (reason now : String) (r : FundRecord) :
      CoreStep r (markFailedUpd reason now r)
  | uploadComplete (bucketName : String) (inputFiles : List String) (fundId now : String)
      (r : FundRecord) :
      CoreStep r (uploadCompleteUpd bucketName inputFiles fundId now r)
  | reInitiate (docBucket uploadPrefixKey resultsPrefixKey now : String) (ttl : Option Nat)
      (r : FundRecord) :
      CoreStep r (upsertFundRecordUpd docBucket uploadPrefixKey resultsPrefixKey now ttl r)
  | statusUpdate (statusV : Status) (resultPath errorMessage : Option String) (now : String)
      (r : FundRecord) :
      CoreStep r (updateFundStatusUpd statusV resultPath errorMessage now r)
  | uploadReplace (bucketName fundId now : String) (documents : List String)
      (r : FundRecord) :
      CoreStep r (uploadLambdaItem bucketName fundId now documents)

/-- A fund record value is reachable when some sequence of core mutations leads
to it from an initial record. -/
def ReachableFund (r : FundRecord) : Prop :=
  ∃ r0, InitialFund r0 ∧ Relation.ReflTransGen CoreStep r0 r

/-! ## Concrete fixtures for witnesses and counterexamples -/

/-- A fully configured environment. -/
def envC : Env :=
  { TABLE := "FundTable", DOC_BUCKET := "DocBucket", PROMPT_KEY := "prompt.txt"
    SCHEMA_KEY := "schema.json", MODEL_ID := "model-1" }

/-- A record sitting in EXTRACTED with a stored payload. -/
def rExtractedC : FundRecord :=
  { status := some Status.EXTRACTED
    payload := some "payloadJson"
    objectKey := some "f1/old.pdf"
    fileName := some "old.pdf"
    createdAt := some "2024-01-01T00:00:00Z"
    updatedAt := some "2024-01-02T00:00:00Z" }

/-- A store holding fund f1 in EXTRACTED with a payload. -/
def stExtractedC : Store := [("f1", rExtractedC)]

/-- A record sitting in UPLOADED. -/
def rUploadedC : FundRecord :=
  { status := some Status.UPLOADED
    inputFiles := some ["s3://DocBucket/f2/files/a.pdf"]
    createdAt := some "2024-01-01T00:00:00Z"
    updatedAt := some "2024-01-03T00:00:00Z" }

/-- A store holding fund f2 in UPLOADED. -/
def stUploadedC : Store := [("f2", rUploadedC)]

/-- A record sitting in PROCESSING on objectKey f1/old.pdf. -/
def rProcessingC : FundRecord :=
  { status := some Status.PROCESSING
    objectKey := some "f1/old.pdf"
    fileName := some "old.pdf"
    createdAt := some "2024-01-01T00:00:00Z" }

/-- A store holding fund f1 in PROCESSING. -/
def stProcessingC : Store := [("f1", rProcessingC)]

/-- A record sitting in UPLOADING, as created by the IC-memo initiation. -/
def rUploadingC : FundRecord :=
  createFundItem "Fund One" "memo.pdf" "DocBucket" "f1/memo.pdf" "2024-01-01T00:00:00Z"

/-- A store holding fund f1 in UPLOADING. -/
def stUploadingC : Store := [("f1", rUploadingC)]

/-- A well-formed icmemo message for fund f1. -/
def msgIcmemoC : SqsMessage :=
  { fundId := some "f1", documentType := some "icmemo"
    bucket := some "InBucket", key := some "uploads/f1/doc.pdf" }

/-- A well-formed message with an unrecognized documentType for fund f1. -/
def msgUnknownC : SqsMessage :=
  { fundId := some "f1", documentType := some "unknown-type"
    bucket := some "InBucket", key := some "uploads/f1/doc.pdf" }

/-- A store holding fund f1 in UPLOADED. -/
def stUploadedF1C : Store := [("f1", rUploadedC)]

/-- The store after the IC-memo initiation creates fund f1. -/
def c9Store0 : Store :=
  (putIfAbsent [] "f1"
    (createFundItem "Fund One" "memo.pdf" "DocBucket" "f1/memo.pdf" "2024-01-01T00:00:00Z")).1

/-- The store after the direct-upload lambda later replaces that record. -/
def c9Store1 : Store :=
  uploadLambdaStep c9Store0 "DocBucket" "f1" "2024-02-02T00:00:00Z" ["a.pdf"]

/-! ## Helper lemmas -/

/-- Did a processing result return normally? -/
def exceptIsOk : Except PErr ConsumerOutcome → Bool
  | Except.ok _ => true
  | Except.error _ => false

/-- Whether `processOneMessage` raises depends only on the environment and the
message, exactly as `msgProcessingFails` computes it. -/
lemma processOneMessage_err (env : Env) (st : Store) (message : SqsMessage) (now : String) :
    exceptIsOk (processOneMessage env st message now).2 = !msgProcessingFails env message := by
  cases h : validateMessage env message with
  | error e => simp [processOneMessage, msgProcessingFails, h, exceptIsOk]
  | ok fields =>
    simp only [processOneMessage, msgProcessingFails, h]
    by_cases hic : fields.documentType = "icmemo"
    · simp [hic, exceptIsOk]
    · by_cases hskip : fields.documentType ∈ ["ima", "sideletter", "lpa", "ppm", "subdoc"]
      · simp [hic, hskip, exceptIsOk]
      · simp [hic, hskip, exceptIsOk]

/-- One handler-loop iteration reports exactly the failing records. -/
lemma stepRecord_snd (env : Env) (st : Store) (rec : SqsRecord) (now : String) :
    (stepRecord env st rec now).2 = if recordFails env rec then [rec.messageId] else [] := by
  cases hb : rec.body with
  | invalid => simp [stepRecord, recordFails, hb]
  | valid message =>
    have h := processOneMessage_err env st message now
    simp only [stepRecord, recordFails, hb]
    cases hp : processOneMessage env st message now with
    | mk st1 res =>
      rw [hp] at h
      cases res with
      | ok o =>
        simp only [exceptIsOk] at h
        have hm : msgProcessingFails env message = false := by
          cases hm0 : msgProcessingFails env message
          · rfl
          · rw [hm0] at h; simp at h
        simp [hm]
      | error e =>
        simp only [exceptIsOk] at h
        have hm : msgProcessingFails env message = true := by
          cases hm0 : msgProcessingFails env message
          · rw [hm0] at h; simp at h
          · rfl
        simp [hm]

/-! ## Claims -/

/-- Claim C8 (confirmed): for every delivered batch, the consumer handler
returns exactly the identifiers of the records that failed — bodies that do not
parse as JSON, and messages whose processing raised — in batch order, and it
processes every record of the batch in sequence regardless of earlier
failures (the final store is the in-order fold of the per-record step, which
best-effort marks the fund FAILED whenever a fundId was resolved). -/
theorem c8_batch_failure_report (env : Env) (records : List SqsRecord) :
    ∀ (st : Store) (now : String),
    (consumerHandler env st records now).2
      = (records.filter (fun rec => recordFails env rec)).map SqsRecord.messageId
  ∧ (consumerHandler env st records now).1
      = records.foldl (fun s rec => (stepRecord env s rec now).1) st := by
  induction records with
  | nil => intro st now; exact ⟨rfl, rfl⟩
  | cons rec rest ih =>
    intro st now
    constructor
    · show ((stepRecord env st rec now).2
          ++ (consumerHandler env (stepRecord env st rec now).1 rest now).2) = _
      rw [stepRecord_snd, (ih _ now).1]
      by_cases h : recordFails env rec = true <;> simp [List.filter_cons, h]
    · show (consumerHandler env (stepRecord env st rec now).1 rest now).1 = _
      rw [(ih _ now).2]
      rfl

/-- Claim C1 (corrected, counterexample): the specified guard admits EXTRACTED,
but the HTTP handler's conditional update does not (and its mutation leaves
`documentType` unset); moreover the queue consumer moves a record into
PROCESSING from UPLOADED — a status outside the claimed guard set — because
its first move-to-PROCESSING update carries no condition at all. -/
theorem c1_begin_processing_counterexample :
    claimBeginGuard (some Status.EXTRACTED) = true
  ∧ httpCondGuard (some Status.EXTRACTED) = false
  ∧ (httpBeginApply "f1/doc.pdf" "doc.pdf" "t1" blankRecord).documentType = none
  ∧ claimBeginGuard (some Status.UPLOADED) = false
  ∧ ((getRec (processOneMessage envC stUploadedF1C msgIcmemoC "t1").1 "f1").map
      (fun r => r.status)) = some (some Status.PROCESSING) := by
  refine ⟨rfl, rfl, rfl, rfl, ?_⟩
  decide

/-- Claim C1 (amended): the queue consumer's guarded update has exactly the
claimed guard and mutation (status = PROCESSING, new objectKey/fileName/
documentType, errorReason cleared); the HTTP handler's guard is the claimed
guard minus EXTRACTED and its mutation does not record documentType; in both,
a conditional update whose guard fails leaves the store unchanged by that
update. -/
theorem c1_begin_processing_amended :
    (∀ s, consumerCondGuard s = claimBeginGuard s)
  ∧ (∀ objectKey fileName documentType now r,
      (consumerProcessingApply objectKey fileName documentType now r).status
          = some Status.PROCESSING
      ∧ (consumerProcessingApply objectKey fileName documentType now r).objectKey
          = some objectKey
      ∧ (consumerProcessingApply objectKey fileName documentType now r).fileName
          = some fileName
      ∧ (consumerProcessingApply objectKey fileName documentType now r).documentType
          = some documentType
      ∧ (consumerProcessingApply objectKey fileName documentType now r).errorReason = none)
  ∧ (∀ s, httpCondGuard s = (claimBeginGuard s && !(s == some Status.EXTRACTED)))
  ∧ (∀ objectKey fileName now r,
      (httpBeginApply objectKey fileName now r).status = some Status.PROCESSING
      ∧ (httpBeginApply objectKey fileName now r).objectKey = some objectKey
      ∧ (httpBeginApply objectKey fileName now r).fileName = some fileName
      ∧ (httpBeginApply objectKey fileName now r).documentType = r.documentType
      ∧ (httpBeginApply objectKey fileName now r).errorReason = none)
  ∧ (∀ (st : Store) (k : String) (cond : FundRecord → Bool)
        (mutate : FundRecord → FundRecord),
      (condUpdate st k cond mutate).2 = false → (condUpdate st k cond mutate).1 = st) := by
  refine ⟨?_, ?_, ?_, ?_, ?_⟩
  · intro s
    cases s with
    | none => decide
    | some v => cases v <;> decide
  · intro objectKey fileName documentType now r
    exact ⟨rfl, rfl, rfl, rfl, rfl⟩
  · intro s
    cases s with
    | none => decide
    | some v => cases v <;> decide
  · intro objectKey fileName now r
    exact ⟨rfl, rfl, rfl, rfl, rfl⟩
  · intro st k cond mutate h
    by_cases hc : cond ((getRec st k).getD blankRecord)
    · simp [condUpdate, hc] at h
    · simp [condUpdate, hc]

/-- Claim C1 (witness): a concrete conditional update whose guard fails — the
HTTP guard against a PROCESSING record — leaves the store unchanged. -/
theorem c1_begin_processing_witness :
    (condUpdate stProcessingC "f1" (fun r => httpCondGuard r.status)
      (httpBeginApply "f1/new.pdf" "new.pdf" "t1")).1 = stProcessingC :=
  c1_begin_processing_amended.2.2.2.2 stProcessingC "f1" _ _ (by decide)

/-- Claim C2 (code bug, evaluation at the failing input): on a fund already
EXTRACTED with a stored payload, the queue consumer's `processOneMessage` does
not return AlreadyComplete: it rewrites the record to PROCESSING (the
unconditional update mislabelled "Fetch fund record") and then raises the
TypeError from reading the absent Item of the UpdateItem response, while the
HTTP handler on the same store returns the stored payload untouched, as the
claim describes. -/
theorem c2_already_extracted_code_bug :
    (processOneMessage envC stExtractedC msgIcmemoC "t1").2 = Except.error ⟨typeErrorMsg⟩
  ∧ ((getRec (processOneMessage envC stExtractedC msgIcmemoC "t1").1 "f1").map
      (fun r => r.status)) = some (some Status.PROCESSING)
  ∧ rExtractedC.status = some Status.EXTRACTED
  ∧ optStrTruthy rExtractedC.payload = true
  ∧ httpExtract envC stExtractedC (some "f1") (some "old.pdf") "t1"
      = (stExtractedC, HttpResult.r200Already "payloadJson") := by
  exact ⟨rfl, by decide, rfl, by decide, by decide⟩

/-- Claim C4 (amended): a record in status UPLOADED fails the conditional
guard of both implementations; the HTTP guard admits exactly
{unset, UPLOADING, FAILED, CREATED} and the consumer guard exactly
{unset, UPLOADING, FAILED, CREATED, EXTRACTED} — UPLOADED is in neither. -/
theorem c4_uploaded_guard_amended :
    ∀ s : Option Status,
    (httpCondGuard s = true ↔
      s = none ∨ s = some Status.UPLOADING ∨ s = some Status.FAILED ∨ s = some Status.CREATED)
  ∧ (consumerCondGuard s = true ↔
      s = none ∨ s = some Status.UPLOADING ∨ s = some Status.FAILED ∨ s = some Status.CREATED
        ∨ s = some Status.EXTRACTED) := by
  intro s
  cases s with
  | none => decide
  | some v => cases v <;> decide

/-- Claim C4 (counterexample): both guards reject UPLOADED, and a concrete
HTTP call on an UPLOADED record falls through to the guard failure path (the
outer catch even marks the record FAILED), rather than being admitted. -/
theorem c4_uploaded_guard_counterexample :
    httpCondGuard (some Status.UPLOADED) = false
  ∧ consumerCondGuard (some Status.UPLOADED) = false
  ∧ httpExtract envC stUploadedC (some "f2") (some "doc.pdf") "t1"
      = (applyUpdate stUploadedC "f2" (markFailedUpd "The conditional request failed" "t1"),
         HttpResult.r500) := by
  exact ⟨rfl, rfl, by decide⟩

/-- Looking up the key just written returns the written record. -/
lemma getRec_putRec_self (st : Store) (k : String) (r : FundRecord) :
    getRec (putRec st k r) k = some r := by
  induction st with
  | nil => simp [putRec, getRec]
  | cons p rest ih =>
    cases p with
    | mk k0 r0 => by_cases h : k0 = k <;> simp [putRec, getRec, h, ih]

/-- Claim C3 (confirmed): for every store and every message that validates with
documentType "icmemo", `processOneMessage` first applies the unconditional
update that sets status = PROCESSING, overwrites objectKey/fileName/
documentType and removes errorReason — before any idempotency or gating check —
and then, because the UpdateItem response carries no Item, the read of
`.Item.status` raises, so the call returns an error (never the
pipeline-entered outcome) and the stored record is exactly the overwrite of
whatever was there before. -/
theorem c3_consumer_unconditional_update (env : Env) (st : Store) (message : SqsMessage)
    (now : String) (fields : JobFields)
    (hv : validateMessage env message = Except.ok fields)
    (hdt : fields.documentType = "icmemo") :
    processOneMessage env st message now
      = (applyUpdate st fields.fundId
          (consumerProcessingApply fields.objectKey fields.fileName "icmemo" now),
         Except.error ⟨typeErrorMsg⟩)
  ∧ getRec (processOneMessage env st message now).1 fields.fundId
      = some (consumerProcessingApply fields.objectKey fields.fileName "icmemo" now
          ((getRec st fields.fundId).getD blankRecord)) := by
  have h1 : processOneMessage env st message now
      = (applyUpdate st fields.fundId
          (consumerProcessingApply fields.objectKey fields.fileName "icmemo" now),
         Except.error ⟨typeErrorMsg⟩) := by
    simp [processOneMessage, hv, hdt]
  refine ⟨h1, ?_⟩
  rw [h1]
  simp [applyUpdate, getRec_putRec_self]

/-- Claim C3 (witness): a concrete icmemo message against an UPLOADING record:
the call errors and the record is overwritten to PROCESSING. -/
theorem c3_consumer_unconditional_update_witness :
    processOneMessage envC stUploadingC msgIcmemoC "t1"
      = (applyUpdate stUploadingC "f1"
          (consumerProcessingApply "uploads/f1/doc.pdf" "doc.pdf" "icmemo" "t1"),
         Except.error ⟨typeErrorMsg⟩) :=
  (c3_consumer_unconditional_update envC stUploadingC msgIcmemoC "t1"
    ⟨"f1", "icmemo", "InBucket", "uploads/f1/doc.pdf", "doc.pdf", "prompt.txt", "schema.json"⟩
    rfl rfl).1

/-- Claim C6 (amended): for an unrecognized documentType that validates, the
consumer raises "Unsupported documentType: ..." with the store untouched by
`processOneMessage` itself (no PROCESSING transition), and the message is
reported failed — but the handler's best-effort catch then marks the fund
record FAILED with that reason, so the record is NOT left unmodified. -/
theorem c6_unsupported_type_amended (env : Env) (st : Store) (message : SqsMessage)
    (now mid : String) (fields : JobFields)
    (hv : validateMessage env message = Except.ok fields)
    (hdt : fields.documentType ∉ ["icmemo", "ima", "sideletter", "lpa", "ppm", "subdoc"])
    (hT : env.TABLE ≠ "") (hf : normStr message.fundId ≠ "") :
    processOneMessage env st message now
      = (st, Except.error ⟨"Unsupported documentType: " ++ fields.documentType⟩)
  ∧ stepRecord env st ⟨mid, MsgBody.valid message⟩ now
      = (applyUpdate st (normStr message.fundId)
          (markFailedUpd ("Unsupported documentType: " ++ fields.documentType) now),
         [mid]) := by
  simp only [List.mem_cons, List.mem_singleton, not_or] at hdt
  obtain ⟨hic, hima, hsl, hlpa, hppm, hsub⟩ := hdt
  have h1 : processOneMessage env st message now
      = (st, Except.error ⟨"Unsupported documentType: " ++ fields.documentType⟩) := by
    simp [processOneMessage, hv, hic, hima, hsl, hlpa, hppm, hsub]
  refine ⟨h1, ?_⟩
  simp only [stepRecord, h1, hT, hf]
  simp [hT, hf]

/-- Claim C6 (witness): the concrete "unknown-type" message is rejected and the
handler loop marks fund f1 FAILED with the unsupported-type reason. -/
theorem c6_unsupported_type_witness :
    processOneMessage envC stUploadingC msgUnknownC "t1"
      = (stUploadingC, Except.error ⟨"Unsupported documentType: unknown-type"⟩)
  ∧ stepRecord envC stUploadingC ⟨"m1", MsgBody.valid msgUnknownC⟩ "t1"
      = (applyUpdate stUploadingC "f1"
          (markFailedUpd "Unsupported documentType: unknown-type" "t1"),
         ["m1"]) :=
  c6_unsupported_type_amended envC stUploadingC msgUnknownC "t1" "m1"
    ⟨"f1", "unknown-type", "InBucket", "uploads/f1/doc.pdf", "doc.pdf",
      "prompt.txt", "schema.json"⟩
    rfl (by decide) (by decide) (by decide)

/-- Claim C6 (counterexample): in a concrete batch holding one "unknown-type"
message for fund f1 (stored in UPLOADING), the message is reported failed as
the claim says, but the fund record is not left unmodified: it ends FAILED
with errorReason "Unsupported documentType: unknown-type". -/
theorem c6_unsupported_type_counterexample :
    (consumerHandler envC stUploadingC [⟨"m1", MsgBody.valid msgUnknownC⟩] "t1").2 = ["m1"]
  ∧ rUploadingC.status = some Status.UPLOADING
  ∧ ((getRec (consumerHandler envC stUploadingC [⟨"m1", MsgBody.valid msgUnknownC⟩] "t1").1
        "f1").map (fun r => r.status)) = some (some Status.FAILED)
  ∧ ((getRec (consumerHandler envC stUploadingC [⟨"m1", MsgBody.valid msgUnknownC⟩] "t1").1
        "f1").map (fun r => r.errorReason))
      = some (some "Unsupported documentType: unknown-type") := by
  exact ⟨by decide, rfl, by decide, by decide⟩

/-- Claim C7 (amended): when the record is already PROCESSING, the HTTP handler
answers 409 Conflict without modifying the record at all — it performs no
force-transition to FAILED and never compares object keys; the queue consumer's
collision branch (written over the item its "fetch" was expected to return)
does mark the record FAILED and raise, but with reason "Received a new document
while processing another document", not "processing collision" — and that
branch is unreachable in the shipped code (claim C3). -/
theorem c7_collision_amended (env : Env) (st : Store) (fundId fileName now : String)
    (item : FundRecord)
    (hT : env.TABLE ≠ "") (hB : env.DOC_BUCKET ≠ "") (hP : env.PROMPT_KEY ≠ "")
    (hS : env.SCHEMA_KEY ≠ "") (hM : env.MODEL_ID ≠ "")
    (hfid : fundId ≠ "") (hfn : jsTrim fileName ≠ "")
    (hrec : getRec st fundId = some item)
    (hstat : item.status = some Status.PROCESSING) :
    httpExtract env st (some fundId) (some fileName) now = (st, HttpResult.r409)
  ∧ (∀ objectKey documentType existingKey,
      item.objectKey = some existingKey → existingKey ≠ "" → existingKey ≠ objectKey →
      consumerAfterFetch st fundId objectKey fileName documentType now item
        = (applyUpdate st fundId
            (markFailedUpd "Received a new document while processing another document" now),
           Except.error ⟨"Processing already in progress for a different document"⟩)) := by
  constructor
  · simp [httpExtract, hT, hB, hP, hS, hM, hfid, hfn, hrec, hstat]
  · intro objectKey documentType existingKey hek hne hdiff
    simp [consumerAfterFetch, hstat, hek, hne, hdiff]

/-- Claim C7 (witness): concrete PROCESSING record with objectKey f1/old.pdf:
the HTTP call with a different document answers 409 leaving the store as it
was, and the consumer's (unreachable) collision logic would mark it FAILED
with its own reason string. -/
theorem c7_collision_witness :
    httpExtract envC stProcessingC (some "f1") (some "new.pdf") "t1"
      = (stProcessingC, HttpResult.r409)
  ∧ consumerAfterFetch stProcessingC "f1" "f1/new.pdf" "new.pdf" "icmemo" "t1" rProcessingC
      = (applyUpdate stProcessingC "f1"
          (markFailedUpd "Received a new document while processing another document" "t1"),
         Except.error ⟨"Processing already in progress for a different document"⟩) :=
  ⟨(c7_collision_amended envC stProcessingC "f1" "new.pdf" "t1" rProcessingC
      (by decide) (by decide) (by decide) (by decide) (by decide) (by decide) (by decide)
      rfl rfl).1,
   (c7_collision_amended envC stProcessingC "f1" "new.pdf" "t1" rProcessingC
      (by decide) (by decide) (by decide) (by decide) (by decide) (by decide) (by decide)
      rfl rfl).2 "f1/new.pdf" "icmemo" "f1/old.pdf" rfl (by decide) (by decide)⟩

/-- Claim C7 (counterexample): on a concrete record in PROCESSING with recorded
objectKey f1/old.pdf and an incoming different document new.pdf, the HTTP
handler returns Conflict but the record is left exactly as it was — still
PROCESSING, errorReason absent — contradicting the claimed force-transition to
FAILED with reason "processing collision". -/
theorem c7_collision_counterexample :
    httpExtract envC stProcessingC (some "f1") (some "new.pdf") "t1"
      = (stProcessingC, HttpResult.r409)
  ∧ ((getRec stProcessingC "f1").map (fun r => r.status)) = some (some Status.PROCESSING)
  ∧ ((getRec stProcessingC "f1").map (fun r => r.objectKey)) = some (some "f1/old.pdf")
  ∧ ((getRec stProcessingC "f1").map (fun r => r.errorReason)) = some none := by
  exact ⟨by decide, by decide, by decide, by decide⟩

/-- Claim C5 (amended): every transition into PROCESSING or EXTRACTED clears
errorReason, and markFailed sets errorReason while preserving payload — so the
mutual exclusivity of payload and errorReason holds until a record that holds
a payload is marked FAILED, at which point both are present. -/
theorem c5_exclusivity_amended (objectKey fileName documentType payload resultBucket
    resultKey reason now : String) (r : FundRecord) :
    (httpBeginApply objectKey fileName now r).errorReason = none
  ∧ (consumerProcessingApply objectKey fileName documentType now r).errorReason = none
  ∧ (completeExtractionUpd payload resultBucket resultKey now r).errorReason = none
  ∧ (httpCompleteExtractionUpd payload now r).errorReason = none
  ∧ (markFailedUpd reason now r).errorReason = some reason
  ∧ (markFailedUpd reason now r).payload = r.payload :=
  ⟨rfl, rfl, rfl, rfl, rfl, rfl⟩

/-- Claim C5 (counterexample): a reachable record state — created UPLOADING,
admitted to PROCESSING, extracted with a payload, then marked FAILED by the
consumer's best-effort failure path — holds a payload and an errorReason at the
same instant, because markFailed never removes the payload attribute. -/
theorem c5_exclusivity_counterexample :
    ReachableFund (markFailedUpd "Unsupported documentType: foo" "t3"
      (completeExtractionUpd "payloadJson" "DocBucket" "f1/icmemo/out.json" "t2"
        (httpBeginApply "f1/memo.pdf" "memo.pdf" "t1" rUploadingC)))
  ∧ (markFailedUpd "Unsupported documentType: foo" "t3"
      (completeExtractionUpd "payloadJson" "DocBucket" "f1/icmemo/out.json" "t2"
        (httpBeginApply "f1/memo.pdf" "memo.pdf" "t1" rUploadingC))).payload
      = some "payloadJson"
  ∧ (markFailedUpd "Unsupported documentType: foo" "t3"
      (completeExtractionUpd "payloadJson" "DocBucket" "f1/icmemo/out.json" "t2"
        (httpBeginApply "f1/memo.pdf" "memo.pdf" "t1" rUploadingC))).errorReason
      = some "Unsupported documentType: foo" := by
  refine ⟨⟨rUploadingC, Or.inl ⟨"Fund One", "memo.pdf", "DocBucket", "f1/memo.pdf",
    "2024-01-01T00:00:00Z", rfl⟩, ?_⟩, rfl, rfl⟩
  have s1 : CoreStep rUploadingC
      (httpBeginApply "f1/memo.pdf" "memo.pdf" "t1" rUploadingC) :=
    CoreStep.httpBegin _ _ _ _ (by decide)
  have s2 : CoreStep (httpBeginApply "f1/memo.pdf" "memo.pdf" "t1" rUploadingC)
      (completeExtractionUpd "payloadJson" "DocBucket" "f1/icmemo/out.json" "t2"
        (httpBeginApply "f1/memo.pdf" "memo.pdf" "t1" rUploadingC)) :=
    CoreStep.completeExtraction _ _ _ _ _
  have s3 : CoreStep (completeExtractionUpd "payloadJson" "DocBucket" "f1/icmemo/out.json" "t2"
        (httpBeginApply "f1/memo.pdf" "memo.pdf" "t1" rUploadingC))
      (markFailedUpd "Unsupported documentType: foo" "t3"
        (completeExtractionUpd "payloadJson" "DocBucket" "f1/icmemo/out.json" "t2"
          (httpBeginApply "f1/memo.pdf" "memo.pdf" "t1" rUploadingC))) :=
    CoreStep.markFailed _ _ _
  exact Relation.ReflTransGen.head s1 (Relation.ReflTransGen.head s2
    (Relation.ReflTransGen.single s3))

/-- Claim C9 (counterexample): fund f1 is created with createdAt
2024-01-01...; the direct-upload handler's later full-item put replaces the
record and resets createdAt to 2024-02-02..., so a later core operation does
overwrite createdAt. -/
theorem c9_createdAt_counterexample :
    ((getRec c9Store0 "f1").map (fun r => r.createdAt)) = some (some "2024-01-01T00:00:00Z")
  ∧ ((getRec c9Store1 "f1").map (fun r => r.createdAt)) = some (some "2024-02-02T00:00:00Z")
  ∧ ("2024-01-01T00:00:00Z" : String) ≠ "2024-02-02T00:00:00Z" := by
  exact ⟨by decide, by decide, by decide⟩

/-- Claim C9 (amended): createdAt is preserved by re-initiation (written with
if_not_exists) and untouched by upload completion, both begin-processing
updates, both extraction-success updates, failure recording, and the batched
processor's status update — but the direct-upload handler's full-item put
always writes the current time into createdAt, replacing any earlier value. -/
theorem c9_createdAt_amended (docBucket uploadPrefixKey resultsPrefixKey bucketName
    objectKey fileName documentType payload resultBucket resultKey reason fundId now : String)
    (ttl : Option Nat) (inputFiles : List String) (resultPath errorMessage : Option String)
    (statusV : Status) (r : FundRecord) :
    (upsertFundRecordUpd docBucket uploadPrefixKey resultsPrefixKey now ttl r).createdAt
      = some (r.createdAt.getD now)
  ∧ (uploadCompleteUpd bucketName inputFiles fundId now r).createdAt = r.createdAt
  ∧ (httpBeginApply objectKey fileName now r).createdAt = r.createdAt
  ∧ (consumerProcessingApply objectKey fileName documentType now r).createdAt = r.createdAt
  ∧ (completeExtractionUpd payload resultBucket resultKey now r).createdAt = r.createdAt
  ∧ (httpCompleteExtractionUpd payload now r).createdAt = r.createdAt
  ∧ (markFailedUpd reason now r).createdAt = r.createdAt
  ∧ (updateFundStatusUpd statusV resultPath errorMessage now r).createdAt = r.createdAt
  ∧ (uploadLambdaItem bucketName fundId now inputFiles).createdAt = some now :=
  ⟨rfl, rfl, rfl, rfl, rfl, rfl, rfl, rfl, rfl⟩

/-- A filter after a map is the map of a filter on the fused predicate. -/
lemma filterMapFilter {α β : Type} (p : α → Bool) (f : α → β) (q : β → Bool) (l : List α) :
    ((l.filter p).map f).filter q = (l.filter (fun a => p a && q (f a))).map f := by
  induction l with
  | nil => rfl
  | cons a t ih =>
    by_cases hp : p a
    · by_cases hq : q (f a) <;> simp [List.filter_cons, hp, hq, ih]
    · simp [List.filter_cons, hp, ih]

/-- Claim C10 (amended): in the two status-managed handlers the assembled OCR
text is the join of exactly those LINE blocks whose text is nonempty and does
not case-insensitively contain the watermark marker, in original order; the
simple extraction handler joins every LINE block's text with no noise filter
at all. -/
theorem c10_ocr_text_amended (blocks : List TextBlock) :
    memoText blocks = claimOcrTextNonempty blocks
  ∧ memoTextSimple blocks
      = joinNl ((blocks.filter (fun b => b.blockType == "LINE")).map
          (fun b => b.text.getD "")) := by
  constructor
  · unfold memoText claimOcrTextNonempty
    exact congrArg joinNl (filterMapFilter _ _ _ blocks)
  · rfl

/-- Claim C10 (counterexample): an empty-text LINE block is dropped by the
code but kept (as an empty line) by the claimed description, and the simple
handler keeps a watermark line the claimed description excludes. -/
theorem c10_ocr_text_counterexample :
    memoText [⟨"LINE", some "a"⟩, ⟨"LINE", some ""⟩, ⟨"LINE", some "b"⟩]
      ≠ claimOcrText [⟨"LINE", some "a"⟩, ⟨"LINE", some ""⟩, ⟨"LINE", some "b"⟩]
  ∧ memoTextSimple [⟨"LINE", some "Watermark sample"⟩, ⟨"LINE", some "x"⟩]
      ≠ claimOcrText [⟨"LINE", some "Watermark sample"⟩, ⟨"LINE", some "x"⟩] := by
  exact ⟨by decide, by decide⟩
